import Mathlib

/-!
Shallow embedding of the Lunia WhatsApp agent core (session manager,
service-intent matcher, and conversation orchestrator) together with
proofs about the spec's claims.

Conventions of the embedding:
* Python strings are `List Char` (`Str`); `len`, slicing, `.lower()`,
  `.strip()`, substring containment and `re` operations are embedded
  over that representation.
* `datetime` values are minutes since an arbitrary epoch (`Nat`); the
  code under verification only ever adds whole days/hours/minutes and
  replaces the hour/minute fields, so minute granularity is exact for it.
* External collaborators (email, calendar, database, WhatsApp, knowledge
  base) are pure oracles passed in as functions; every outgoing call the
  matcher makes is additionally recorded in an explicit trace so that
  "invoked exactly once" style properties can be stated.
* Python `re` is embedded by a small backtracking engine (`RE`, `reRun`)
  whose alternation/greediness order mirrors CPython's: alternatives in
  written order, `*`/`+`/`?` greedy, `re.search` leftmost.  `\w`, `\s`,
  `\d` are the ASCII classes (all inputs in the claims are ASCII-word
  texts).
-/

set_option maxRecDepth 10000

abbrev Str := List Char

/-- Convert a Lean string literal to the embedded representation. -/
def strL (s : String) : Str := s.toList

/-- Python `str.lower()` (ASCII behaviour, which is all the code relies on). -/
def lowerL (s : Str) : Str := s.map Char.toLower

/-- Python `str.isspace` set used by `strip()` and the `\s` class. -/
def pyIsSpace (c : Char) : Bool :=
  c = ' ' || c = '\t' || c = '\n' || c = '\r' || c = '\x0b' || c = '\x0c'

/-- Python `str.strip()`. -/
def pyStrip (s : Str) : Str :=
  ((s.dropWhile pyIsSpace).reverse.dropWhile pyIsSpace).reverse

/-- The `\w` class (ASCII: letters, digits, underscore). -/
def isWordChar (c : Char) : Bool := c.isAlphanum || c = '_'

/-- Does `p` occur as a leading segment of `s`? (helper for containment). -/
def startsWithL : Str → Str → Bool
  | [], _ => true
  | _ :: _, [] => false
  | a :: as, b :: bs => a = b && startsWithL as bs

/-- Python substring containment `needle in hay`. -/
def containsSub (hay needle : Str) : Bool :=
  match hay with
  | [] => startsWithL needle []
  | c :: tl => startsWithL needle (c :: tl) || containsSub tl needle

/-- Python `int(...)` on a digit string. -/
def digitsToNat (s : Str) : Nat :=
  s.foldl (fun acc c => acc * 10 + (c.toNat - '0'.toNat)) 0

/-- Hour field of a minutes-since-epoch timestamp. -/
def hourOfMinutes (t : Nat) : Nat := t % 1440 / 60

/-- Python `dt.replace(hour := h, minute := m, second := 0, microsecond := 0)`
at minute granularity. -/
def replaceHourMinute (t h m : Nat) : Nat := t / 1440 * 1440 + h * 60 + m

/-! ### A small backtracking regex engine (embedding of Python `re`) -/

/-- Regular expressions: empty, character class, concatenation, ordered
alternation, greedy star, and numbered capturing group. -/
inductive RE where
  | eps : RE
  | cls (p : Char → Bool) : RE
  | seq (a b : RE) : RE
  | alt (a b : RE) : RE
  | star (r : RE) : RE
  | grp (n : Nat) (r : RE) : RE

/-- Captured groups: group number paired with the captured text. -/
abbrev Caps := List (Nat × Str)

/-- Greedy iteration for `star`: each iteration must consume at least one
character, so `s.length` iterations always suffice.  Longest-consuming
results come first, matching Python's greedy backtracking order. -/
def starIter (f : Str → List (Str × Caps)) : Nat → Str → List (Str × Caps)
  | 0, s => [(s, [])]
  | fuel + 1, s =>
      (((f s).filter (fun pr => pr.1.length < s.length)).map
        (fun pr => (starIter f fuel pr.1).map
          (fun qr => (qr.1, pr.2 ++ qr.2)))).flatten
      ++ [(s, [])]

/-- All ways the pattern can match a leading segment of `s`, in Python's
backtracking preference order; each result is the remaining input and the
captured groups. -/
def reRun : RE → Str → List (Str × Caps)
  | .eps, s => [(s, [])]
  | .cls _, [] => []
  | .cls p, c :: cs => if p c then [(cs, [])] else []
  | .seq a b, s =>
      ((reRun a s).map (fun pr =>
        (reRun b pr.1).map (fun qr => (qr.1, pr.2 ++ qr.2)))).flatten
  | .alt a b, s => reRun a s ++ reRun b s
  | .star r, s => starIter (reRun r) s.length s
  | .grp n r, s =>
      (reRun r s).map (fun pr =>
        (pr.1, (n, s.take (s.length - pr.1.length)) :: pr.2))

/-- The result of a successful `re.search`: start index, matched text
(group 0), and captured groups. -/
structure REMatch where
  pos : Nat
  matchedText : Str
  caps : Caps
deriving DecidableEq, Repr

/-- Try the pattern at each start position, left to right. -/
def reSearchAux (re : RE) : Str → Nat → Option REMatch
  | [], i =>
    match (reRun re []).head? with
    | some pr => some ⟨i, [], pr.2⟩
    | none => none
  | c :: tl, i =>
    match (reRun re (c :: tl)).head? with
    | some pr =>
        some ⟨i, (c :: tl).take ((c :: tl).length - pr.1.length), pr.2⟩
    | none => reSearchAux re tl (i + 1)

/-- Python `re.search(re, s)`. -/
def re_search (re : RE) (s : Str) : Option REMatch := reSearchAux re s 0

/-- Python `match.group(n)` (`none` when the group did not participate). -/
def capGet (caps : Caps) (n : Nat) : Option Str :=
  (caps.find? (fun e => e.1 == n)).map (·.2)

/-- First pattern of the list that matches somewhere in `s` (the
`for pattern in patterns: re.search(...)` loops of the matcher). -/
def search_list (pats : List RE) (s : Str) : Option REMatch :=
  match pats with
  | [] => none
  | p :: ps =>
    match re_search p s with
    | some m => some m
    | none => search_list ps s

/-- Python `re.findall` (full matched texts; the embedded patterns never
match the empty string, the empty-match case advances one position). -/
def reFindAllAux (re : RE) : Nat → Str → List Str
  | 0, _ => []
  | fuel + 1, s =>
    match re_search re s with
    | none => []
    | some m =>
      if m.matchedText.isEmpty then
        m.matchedText :: reFindAllAux re fuel (s.drop (m.pos + 1))
      else
        m.matchedText :: reFindAllAux re fuel (s.drop (m.pos + m.matchedText.length))

def re_findall (re : RE) (s : Str) : List Str := reFindAllAux re (s.length + 1) s

/-- Python `re.sub(re, '', s)`: delete every non-overlapping match. -/
def reSubAux (re : RE) : Nat → Str → Str
  | 0, s => s
  | fuel + 1, s =>
    match re_search re s with
    | none => s
    | some m =>
      if m.matchedText.isEmpty then
        s.take (m.pos + 1) ++ reSubAux re fuel (s.drop (m.pos + 1))
      else
        s.take m.pos ++ reSubAux re fuel (s.drop (m.pos + m.matchedText.length))

def re_sub_empty (re : RE) (s : Str) : Str := reSubAux re (s.length + 1) s

/-! ### Pattern constructors -/

def lit1 (c : Char) : RE := .cls (fun x => x == c)

/-- Case-insensitive literal character (`re.IGNORECASE`); `c` lowercase. -/
def litI1 (c : Char) : RE := .cls (fun x => x.toLower == c)

def seqAll : List RE → RE
  | [] => .eps
  | [r] => r
  | r :: rs => .seq r (seqAll rs)

def altAll : List RE → RE
  | [] => .eps
  | [r] => r
  | r :: rs => .alt r (altAll rs)

def litStr (s : String) : RE := seqAll (s.toList.map lit1)

def litStrI (s : String) : RE := seqAll (s.toList.map litI1)

def rePlus (r : RE) : RE := .seq r (.star r)

def reOpt (r : RE) : RE := .alt r .eps

/-- `.` (any character but newline). -/
def reDot : RE := .cls (fun c => c != '\n')

def wsp : RE := .cls pyIsSpace

/-- `\s+` -/
def wsp1 : RE := rePlus wsp

/-- `[^\s]+` -/
def nonSpace1 : RE := rePlus (.cls (fun c => !(pyIsSpace c)))

/-- `.+` -/
def dotPlus : RE := rePlus reDot

/-- `\d` -/
def digitCls : RE := .cls Char.isDigit

/-! ### Service-intent patterns (`AgentServiceIntegration.__init__`) -/

/-- `self.email_patterns` (matched against the lowercased message). -/
def email_patterns : List RE :=
  [seqAll [litStr "send", wsp1, litStr "email", wsp1, litStr "to", wsp1, .grp 1 nonSpace1],
   seqAll [litStr "email", wsp1, .grp 1 nonSpace1, wsp1, litStr "about", wsp1, .grp 2 dotPlus],
   seqAll [litStr "enviar", wsp1, litStr "correo", wsp1, litStr "a", wsp1, .grp 1 nonSpace1],
   seqAll [litStr "mandar", wsp1, litStr "email", wsp1, litStr "a", wsp1, .grp 1 nonSpace1]]

/-- `self.calendar_patterns`. -/
def calendar_patterns : List RE :=
  [seqAll [litStr "schedule", wsp1, litStr "meeting", wsp1, .grp 1 dotPlus],
   seqAll [litStr "create", wsp1, litStr "appointment", wsp1, .grp 1 dotPlus],
   seqAll [litStr "book", wsp1, .grp 1 dotPlus, wsp1, litStr "on", wsp1, .grp 2 dotPlus],
   seqAll [litStr "programar", wsp1, litStr "cita", wsp1, .grp 1 dotPlus],
   seqAll [litStr "agendar", wsp1, .grp 1 dotPlus, wsp1, litStr "para", wsp1, .grp 2 dotPlus]]

/-- `self.reminder_patterns`. -/
def reminder_patterns : List RE :=
  [seqAll [litStr "remind", wsp1, litStr "me", wsp1, .grp 1 dotPlus],
   seqAll [litStr "set", wsp1, litStr "reminder", wsp1, .grp 1 dotPlus],
   seqAll [litStr "recordarme", wsp1, .grp 1 dotPlus],
   seqAll [litStr "crear", wsp1, litStr "recordatorio", wsp1, .grp 1 dotPlus]]

/-- The email-address regex `[\w\.-]+@[\w\.-]+\.\w+`. -/
def email_address_re : RE :=
  seqAll [rePlus (.cls (fun c => isWordChar c || c == '.' || c == '-')),
          lit1 '@',
          rePlus (.cls (fun c => isWordChar c || c == '.' || c == '-')),
          lit1 '.',
          rePlus (.cls isWordChar)]

/-- `_extract_email_subject`'s patterns, `re.IGNORECASE`. -/
def subject_patterns : List RE :=
  [seqAll [litStrI "subject", rePlus (.cls (fun c => c == ':' || pyIsSpace c)), .grp 1 dotPlus],
   seqAll [litStrI "asunto", rePlus (.cls (fun c => c == ':' || pyIsSpace c)), .grp 1 dotPlus],
   seqAll [litStrI "titulo", rePlus (.cls (fun c => c == ':' || pyIsSpace c)), .grp 1 dotPlus]]

/-- `(schedule|create|book|programar|agendar)\s+([^0-9]+)`, `re.IGNORECASE`. -/
def event_summary_re : RE :=
  seqAll [.grp 1 (altAll [litStrI "schedule", litStrI "create", litStrI "book",
                          litStrI "programar", litStrI "agendar"]),
          wsp1,
          .grp 2 (rePlus (.cls (fun c => !(c.isDigit))))]

/-- `\d{1,2}` (greedy: two digits preferred). -/
def d12 : RE := .alt (seqAll [digitCls, digitCls]) digitCls

/-- `_extract_datetime_from_message`'s `time_patterns`. -/
def time_patterns : List RE :=
  [seqAll [litStr "at", wsp1, .grp 1 d12, reOpt (lit1 ':'),
           reOpt (.grp 2 (seqAll [digitCls, digitCls])), .star wsp,
           reOpt (.grp 3 (.alt (litStr "pm") (litStr "am")))],
   seqAll [lit1 'a', wsp1, litStr "las", wsp1, .grp 1 d12, reOpt (lit1 ':'),
           reOpt (.grp 2 (seqAll [digitCls, digitCls]))]]

/-- `_check_data_intent`'s keyword list. -/
def data_keywords : List Str :=
  [strL "show me", strL "get", strL "find", strL "search", strL "list", strL "query",
   strL "muestra", strL "busca", strL "encuentra", strL "lista", strL "consulta"]

/-! ### Extraction helpers of `AgentServiceIntegration` -/

/-- `_extract_email_subject`. -/
def extract_email_subject (message : Str) : Option Str :=
  match search_list subject_patterns message with
  | some m =>
    match capGet m.caps 1 with
    | some g => some (pyStrip g)
    | none => none
  | none => none

/-- `_extract_email_body` (the `recipient` argument is unused in the source
too; the two trigger-phrase substitutions are `re.IGNORECASE`). -/
def extract_email_body (message _recipient : Str) : Str :=
  let body := message
  let body := re_sub_empty email_address_re body
  let body := re_sub_empty (seqAll [litStrI "send", wsp1, litStrI "email", wsp1, litStrI "to"]) body
  let body := re_sub_empty (seqAll [litStrI "enviar", wsp1, litStrI "correo", wsp1, litStrI "a"]) body
  let body := pyStrip body
  if body.length < 10 then
    strL "Mensaje enviado desde el asistente WhatsApp de Lunia Soluciones.\n\nContenido: " ++ message
  else body

/-- `_extract_datetime_from_message` (minute granularity; `now + 1 day`
etc. are exact translations of the `timedelta` arithmetic). -/
def extract_datetime_from_message (now : Nat) (message : Str) : Option Nat :=
  let ml := lowerL message
  if containsSub ml (strL "tomorrow") || containsSub ml (strL "mañana") then
    some (now + 1440)
  else if containsSub ml (strL "next week") || containsSub ml (strL "próxima semana") then
    some (now + 10080)
  else if containsSub ml (strL "today") || containsSub ml (strL "hoy") then
    some (now + 60)
  else
    match search_list time_patterns ml with
    | some m =>
      let hour := match capGet m.caps 1 with | some g => digitsToNat g | none => 0
      let minute := match capGet m.caps 2 with | some g => digitsToNat g | none => 0
      let hour := if (capGet m.caps 3 == some (strL "pm")) && hour < 12 then hour + 12 else hour
      let target := replaceHourMinute now hour minute
      let target := if target < now then target + 1440 else target
      some target
    | none => none

/-- Summary part of `_extract_event_details` (first part before digits,
falling back to a canned summary). -/
def event_summary_of (message : Str) : Str :=
  match re_search event_summary_re message with
  | some m =>
    match capGet m.caps 2 with
    | some g => pyStrip g
    | none => strL "Reunión programada desde WhatsApp"
  | none => strL "Reunión programada desde WhatsApp"

/-- Event details extracted from a message (`_extract_event_details`);
`description` defaults to empty, matching `event_details.get("description", "")`. -/
structure EventDetails where
  summary : Str
  description : Str := []
  start_datetime : Nat
  end_datetime : Nat
  attendees : List Str := []
deriving DecidableEq

/-- `_extract_event_details`.  The body cannot raise in this embedding,
so the `except → None` branch is unreachable and the result is always
`some`. -/
def extract_event_details (now : Nat) (message : Str) : Option EventDetails :=
  let summary := event_summary_of message
  let (sdt, edt) :=
    match extract_datetime_from_message now message with
    | some t => (t, t + 60)
    | none =>
      let nextHour := now / 60 * 60 + 60
      (nextHour, nextHour + 60)
  let attendees := re_findall email_address_re message
  some { summary := summary, start_datetime := sdt, end_datetime := edt, attendees := attendees }

/-- `_extract_reminder_time`. -/
def extract_reminder_time (now : Nat) (message : Str) : Option Nat :=
  let ml := lowerL message
  if containsSub ml (strL "in 1 hour") || containsSub ml (strL "en 1 hora") then some (now + 60)
  else if containsSub ml (strL "in 30 minutes") || containsSub ml (strL "en 30 minutos") then some (now + 30)
  else if containsSub ml (strL "tomorrow") || containsSub ml (strL "mañana") then some (now + 1440)
  else extract_datetime_from_message now message

/-! ### The Service Action Matcher with an explicit call trace -/

/-- External collaborators as pure oracles: `send_email` returns success,
`create_event` returns an event id or null, `db_insert` returns success
(payloads are not inspected by any claim, only the target table). -/
structure Services where
  send_email : Str → Str → Str → Bool
  create_event : EventDetails → Option Str
  db_insert : Str → Bool

/-- The result dictionary of `process_service_intent` (the optional
`details` sub-dictionary carries no claim-relevant information and is not
modeled). -/
structure SvcResult where
  action : Str
  success : Bool
  message : Str
deriving DecidableEq

/-- Trace of outgoing collaborator calls made while processing one message:
arguments of each `email_service.send_email`, each
`calendar_service.create_event`, and the table of each
`supabase_service.insert`. -/
structure SvcTrace where
  emailCalls : List (Str × Str × Str) := []
  calendarCalls : List EventDetails := []
  dbInserts : List Str := []
deriving DecidableEq

/-- Decimal rendering of a timestamp (stands in for `strftime`; only used
inside human-readable messages no claim constrains). -/
def natToDigits (n : Nat) : Str := strL (toString n)

/-- `_check_email_intent`. -/
def check_email_intent (svc : Services) (message message_lower user_id : Str) :
    Option SvcResult × SvcTrace :=
  if (search_list email_patterns message_lower).isSome then
    match re_search email_address_re message with
    | none =>
      (some { action := strL "email_error", success := false,
              message := strL "No se encontró una dirección de email válida en el mensaje." },
       {})
    | some em =>
      let recipient := em.matchedText
      let subject :=
        match extract_email_subject message with
        | some s => s
        | none => strL "Mensaje de " ++ user_id
      let body := extract_email_body message recipient
      if svc.send_email recipient subject body then
        (some { action := strL "email_sent", success := true,
                message := strL "✅ Email enviado exitosamente a " ++ recipient },
         { emailCalls := [(recipient, subject, body)], dbInserts := [strL "service_actions"] })
      else
        (some { action := strL "email_error", success := false,
                message := strL "❌ Error al enviar el email. Verifica la configuración." },
         { emailCalls := [(recipient, subject, body)] })
  else (none, {})

/-- `_check_calendar_intent`. -/
def check_calendar_intent (now : Nat) (svc : Services) (message message_lower _user_id : Str) :
    Option SvcResult × SvcTrace :=
  if (search_list calendar_patterns message_lower).isSome then
    match extract_event_details now message with
    | none =>
      (some { action := strL "calendar_error", success := false,
              message := strL "No pude extraer los detalles del evento. Por favor proporciona más información." },
       {})
    | some ed =>
      match svc.create_event ed with
      | some _ =>
        (some { action := strL "calendar_event_created", success := true,
                message := strL "📅 Evento creado: " ++ ed.summary ++ strL " para " ++ natToDigits ed.start_datetime },
         { calendarCalls := [ed], dbInserts := [strL "service_actions"] })
      | none =>
        (some { action := strL "calendar_error", success := false,
                message := strL "❌ Error al crear el evento en el calendario." },
         { calendarCalls := [ed] })
  else (none, {})

/-- `_check_reminder_intent`. -/
def check_reminder_intent (now : Nat) (svc : Services) (message message_lower user_id : Str) :
    Option SvcResult × SvcTrace :=
  match search_list reminder_patterns message_lower with
  | some m =>
    let reminderText := match capGet m.caps 1 with | some g => g | none => []
    let rtime :=
      match extract_reminder_time now message with
      | some t => t
      | none => now + 60
    let ed : EventDetails :=
      { summary := strL "🔔 Recordatorio: " ++ reminderText,
        description := strL "Recordatorio solicitado por usuario " ++ user_id,
        start_datetime := rtime, end_datetime := rtime + 15 }
    match svc.create_event ed with
    | some _ =>
      (some { action := strL "reminder_created", success := true,
              message := strL "⏰ Recordatorio creado: " ++ reminderText ++ strL " para " ++ natToDigits rtime },
       { calendarCalls := [ed], dbInserts := [strL "reminders"] })
    | none =>
      (some { action := strL "reminder_error", success := false,
              message := strL "❌ Error al crear el recordatorio." },
       { calendarCalls := [ed] })
  | none => (none, {})

/-- `_check_data_intent`. -/
def check_data_intent (_svc : Services) (_message message_lower _user_id : Str) :
    Option SvcResult × SvcTrace :=
  if data_keywords.any (fun k => containsSub message_lower k) then
    (some { action := strL "data_query_logged", success := true,
            message := strL "📊 Tu consulta ha sido registrada para procesamiento." },
     { dbInserts := [strL "user_queries"] })
  else (none, {})

/-- `process_service_intent`: the four categories in fixed order, first
match wins; no category matching yields the `"none"` result (note: a
result dictionary is returned in every case). -/
def process_service_intent (now : Nat) (svc : Services) (message user_id : Str) :
    SvcResult × SvcTrace :=
  let ml := lowerL message
  match check_email_intent svc message ml user_id with
  | (some r, tr) => (r, tr)
  | (none, _) =>
    match check_calendar_intent now svc message ml user_id with
    | (some r, tr) => (r, tr)
    | (none, _) =>
      match check_reminder_intent now svc message ml user_id with
      | (some r, tr) => (r, tr)
      | (none, _) =>
        match check_data_intent svc message ml user_id with
        | (some r, tr) => (r, tr)
        | (none, _) =>
          ({ action := strL "none", success := false, message := strL "No service action detected" }, {})

/-! ### Session manager (`InMemorySessionManager`, `UserSession`) -/

/-- `Config.MAX_CONVERSATION_HISTORY` (default 10). -/
def MAX_CONVERSATION_HISTORY : Nat := 10

/-- `Config.SESSION_TIMEOUT_MINUTES` (default 30); time is in minutes. -/
def SESSION_TIMEOUT_MINUTES : Nat := 30

/-- One conversation turn; `role` is the `ConversationRole` value as a
string ("user" / "assistant" / "system"). -/
structure ConversationTurn where
  role : Str
  content : Str
  timestamp : Nat
  metadata : Option Str := none
deriving DecidableEq

/-- `UserSession` dataclass. -/
structure UserSession where
  user_id : Str
  conversation_history : List ConversationTurn
  created_at : Nat
  last_activity : Nat
  metadata : Option Str := none
deriving DecidableEq

/-- The manager's `self._sessions` dict, as an insertion-ordered
association list with (invariantly) unique keys. -/
abbrev SessionStore := List (Str × UserSession)

/-- Dict lookup `self._sessions.get(user_id)`. -/
def findSession (store : SessionStore) (uid : Str) : Option UserSession :=
  (store.find? (fun e => decide (e.1 = uid))).map (·.2)

/-- Dict assignment `self._sessions[user_id] = session` (overwrite in
place, or append at the end for a new key, as Python dicts do). -/
def storeSet (store : SessionStore) (uid : Str) (s : UserSession) : SessionStore :=
  if (store.find? (fun e => decide (e.1 = uid))).isSome then
    store.map (fun e => if e.1 = uid then (uid, s) else e)
  else store ++ [(uid, s)]

/-- `_is_session_expired`: strictly older than the timeout.  (`Nat`
subtraction truncates at zero, matching the sign of the `timedelta`
comparison for the in-range case.) -/
def is_session_expired (now : Nat) (s : UserSession) : Bool :=
  SESSION_TIMEOUT_MINUTES < now - s.last_activity

/-- `delete_session` (always returns True in the source; the store effect
is what matters here). -/
def delete_session (store : SessionStore) (uid : Str) : SessionStore :=
  store.filter (fun e => decide (¬ e.1 = uid))

/-- `get_session`: an expired session is deleted and reported absent; an
unexpired one is returned unchanged.  Returns the result together with
the (possibly shrunk) store. -/
def get_session (now : Nat) (store : SessionStore) (uid : Str) :
    Option UserSession × SessionStore :=
  match findSession store uid with
  | some s =>
    if is_session_expired now s then (none, delete_session store uid)
    else (some s, store)
  | none => (none, store)

/-- `save_session`: stamps `last_activity = datetime.now()` and stores the
session under its own `user_id`. -/
def save_session (now : Nat) (store : SessionStore) (s : UserSession) : SessionStore :=
  storeSet store s.user_id { s with last_activity := now }

/-- `create_session`. -/
def create_session (now : Nat) (store : SessionStore) (uid : Str) :
    UserSession × SessionStore :=
  let s : UserSession :=
    { user_id := uid, conversation_history := [], created_at := now, last_activity := now }
  (s, save_session now store s)

/-- `add_message`: fetch-or-create the session, append the turn
(`UserSession.add_turn`), truncate the history to the last
`MAX_CONVERSATION_HISTORY` entries when it exceeds the limit, save. -/
def add_message (now : Nat) (store : SessionStore) (uid role content : Str)
    (metadata : Option Str) : SessionStore :=
  let fetched := get_session now store uid
  let known :=
    match fetched.1 with
    | some s => (s, fetched.2)
    | none => create_session now fetched.2 uid
  let s := known.1
  let hist := s.conversation_history ++
    [{ role := role, content := content, timestamp := now, metadata := metadata }]
  let hist :=
    if MAX_CONVERSATION_HISTORY < hist.length then
      hist.drop (hist.length - MAX_CONVERSATION_HISTORY)
    else hist
  save_session now known.2 { s with conversation_history := hist, last_activity := now }

/-- `cleanup_expired_sessions`: collect the expired user ids, then delete
each. -/
def cleanup_expired_sessions (now : Nat) (store : SessionStore) : SessionStore :=
  let expired_users := (store.filter (fun e => is_session_expired now e.2)).map (·.1)
  expired_users.foldl (fun st uid => delete_session st uid) store

/-! ### The enhanced agent (`LuniaAgent`) -/

/-- `MessageType` enum (source constructor names TEXT, AUDIO, IMAGE,
DOCUMENT, ERROR, SYSTEM). -/
inductive MessageKind where
  | text
  | audioMsg
  | image
  | document
  | errorKind
  | systemKind
deriving DecidableEq

/-- `self._max_message_length` (WhatsApp limit). -/
def max_message_length : Nat := 4000

/-- `AgentState` dataclass (fields not read by any modeled code path are
omitted; `service_action_taken` / `service_action_result` /
`service_error` are set dynamically in the source and default to
false/absent, matching the `getattr(..., False)` reads). -/
structure AgentState where
  input_message : Str := []
  sender_phone : Str := []
  response : Str := []
  message_type : MessageKind := .text
  conversation_history : List (Str × Str) := []
  processing_errors : List Str := []
  validation_error : Option Str := none
  message_length : Nat := 0
  is_greeting : Bool := false
  is_goodbye : Bool := false
  is_question : Bool := false
  intent : Option Str := none
  confidence : ℚ := 0
  response_sent : Bool := false
  session_updated : Bool := false
  service_action_taken : Bool := false
  service_action_result : Option SvcResult := none
  service_error : Option Str := none
deriving DecidableEq

/-- `_validate_input_node`: strip, reject empty or over twice the channel
limit, else store the sanitized message and its length. -/
def validate_input_node (st : AgentState) : AgentState :=
  let message := pyStrip st.input_message
  if message = [] then
    { st with validation_error := some (strL "Empty message received") }
  else if max_message_length * 2 < message.length then
    { st with validation_error := some (strL "Message too long") }
  else
    { st with input_message := message, message_length := message.length }

def greeting_words : List Str :=
  [strL "hello", strL "hi", strL "hola", strL "hey",
   strL "good morning", strL "good afternoon", strL "good evening"]

def goodbye_words : List Str :=
  [strL "bye", strL "adios", strL "goodbye", strL "see you",
   strL "hasta luego", strL "chau", strL "thanks bye"]

def question_words : List Str :=
  [strL "what", strL "how", strL "why", strL "when", strL "where",
   strL "who", strL "which", strL "can you", strL "do you"]

def pricing_words : List Str := [strL "price", strL "cost", strL "budget", strL "pricing"]

def service_words : List Str :=
  [strL "service", strL "services", strL "what do you", strL "what can you"]

def scheduling_words : List Str :=
  [strL "schedule", strL "appointment", strL "meeting", strL "call"]

def email_words : List Str := [strL "email", strL "send", strL "enviar", strL "correo"]

def calendar_words : List Str :=
  [strL "calendar", strL "evento", strL "cita", strL "recordatorio"]

def ai_words : List Str :=
  [strL "ai", strL "artificial intelligence", strL "machine learning", strL "ml"]

/-- Lines 226-262 of `_process_message_node`: message-analysis flags and
ordered keyword intent classification with its fixed confidences. -/
def message_analysis (st : AgentState) : AgentState :=
  let message := pyStrip (lowerL st.input_message)
  let isG := greeting_words.any (fun w => containsSub message w)
  let isB := goodbye_words.any (fun w => containsSub message w)
  let isQ := containsSub st.input_message (strL "?")
             || question_words.any (fun w => startsWithL w (lowerL st.input_message))
  let intent :=
    if isG then strL "greeting"
    else if isB then strL "goodbye"
    else if pricing_words.any (fun w => containsSub message w) then strL "pricing_inquiry"
    else if service_words.any (fun w => containsSub message w) then strL "service_inquiry"
    else if scheduling_words.any (fun w => containsSub message w) then strL "scheduling"
    else if email_words.any (fun w => containsSub message w) then strL "email_request"
    else if calendar_words.any (fun w => containsSub message w) then strL "calendar_request"
    else if ai_words.any (fun w => containsSub message w) then strL "ai_consultation"
    else strL "general_inquiry"
  let conf : ℚ := if intent = strL "greeting" ∨ intent = strL "goodbye" then 9/10 else 7/10
  { st with is_greeting := isG, is_goodbye := isB, is_question := isQ,
            intent := some intent, confidence := conf }

/-- `_process_message_node`: with a configured integration, ask the
Service Action Matcher first.  A successful action short-circuits with a
pre-filled response, `service_<action>` intent and confidence 0.95; an
unsuccessful result (including the "none" no-match result, whose
`success` is False) records `service_action_taken`/`service_error` and
falls through to the message analysis. -/
def process_message_node (now : Nat) (integration : Option Services) (st : AgentState) :
    AgentState × SvcTrace :=
  match integration with
  | some svc =>
    let run := process_service_intent now svc st.input_message st.sender_phone
    let sr := run.1
    if sr.success then
      ({ st with service_action_taken := true, service_action_result := some sr,
                 response := sr.message,
                 intent := some (strL "service_" ++ sr.action),
                 confidence := 95 / 100 }, run.2)
    else
      let st1 := { st with service_action_taken := true, service_action_result := some sr,
                           service_error := some sr.message }
      (message_analysis st1, run.2)
  | none => (message_analysis st, {})

/-- `_generate_greeting_response`. -/
def greeting_response : Str :=
  strL "¡Hola! Soy el Asistente AI de Lunia Soluciones. Estoy aquí para ayudarte con consultoría en IA, desarrollo de soluciones, programación de citas y más. ¿En qué puedo asistirte hoy?\n\nPuedo ayudarte con:\n📧 Enviar emails\n📅 Programar eventos y recordatorios\n🤖 Consultoría en IA\n💼 Información sobre nuestros servicios"

/-- `_generate_goodbye_response`. -/
def goodbye_response : Str :=
  strL "¡Hasta luego! Gracias por contactar a Lunia Soluciones. Esperamos poder ayudarte con tus necesidades de IA en el futuro. ¡Que tengas un excelente día!"

/-- `_generate_error_handling_response`. -/
def error_handling_response : Str :=
  strL "Recibí un mensaje de audio, pero hubo un problema al procesarlo. ¿Podrías intentar enviar un mensaje de texto, o asegurarte de que el audio sea claro?"

/-- `_generate_pricing_response`. -/
def pricing_response : Str :=
  strL "Nuestros servicios de consultoría en IA están adaptados a las necesidades específicas de cada cliente. Los precios dependen del alcance y la complejidad de tu proyecto. ¿Te gustaría programar una consulta para discutir tus requerimientos y obtener una cotización personalizada?"

/-- `_generate_service_response`. -/
def service_response : Str :=
  strL "Lunia Soluciones ofrece servicios integrales de consultoría en IA:\n\n🎯 Desarrollo de Estrategia en IA\n🤖 Soluciones de Machine Learning\n📊 Análisis de Datos e Insights\n⚙️ Automatización de Procesos\n🔧 Servicios de Integración de IA\n\n¿Cuál de estas áreas te interesa más?"

/-- `_generate_scheduling_response`. -/
def scheduling_response : Str :=
  strL "¡Estaré encantado de ayudarte a programar una consulta! Por favor déjame saber tu horario preferido y podemos organizar una reunión para discutir tus necesidades de IA en detalle.\n\nTambién puedo crear recordatorios y eventos en calendario. Solo dime qué necesitas programar."

/-- `_generate_service_unavailable_response`. -/
def service_unavailable_response (intent : Option Str) : Str :=
  if intent = some (strL "email_request") then
    strL "Entiendo que quieres enviar un email. Esta funcionalidad requiere configuración adicional. Por favor contacta directamente a nuestro equipo para asistencia con emails."
  else if intent = some (strL "calendar_request") then
    strL "Entiendo que quieres programar algo en calendario. Esta funcionalidad requiere configuración adicional. Por favor contacta directamente a nuestro equipo para programar citas."
  else
    strL "Esta funcionalidad no está disponible en este momento. Por favor contacta directamente a nuestro equipo."

/-- `_generate_fallback_response` — the fixed "couldn't find an answer"
text used when the knowledge base yields nothing. -/
def fallback_response : Str :=
  strL "Entiendo que estás preguntando sobre eso, pero no tengo información específica disponible. ¿Podrías reformular tu pregunta o preguntar sobre nuestros servicios de consultoría en IA? Estoy aquí para ayudar con información sobre las soluciones y servicios de Lunia."

/-- `_is_error_message`'s sentinel list. -/
def error_indicators : List Str :=
  [strL "[Audio transcription failed]",
   strL "[Audio file not found for transcription]",
   strL "[Audio file was a placeholder, not transcribed]",
   strL "[OpenAI client not available for transcription]",
   strL "[Audio message URL received, but live download/processing is not part of this simulation step]",
   strL "[Transcription resulted in empty text]",
   strL "[Audio transcription failed or unavailable]"]

/-- `_is_error_message`: exact membership of the stripped message. -/
def is_error_message (message : Str) : Bool :=
  error_indicators.any (fun e => decide (pyStrip message = e))

/-- Python `str.split('.')` (used by response truncation). -/
def splitOnChar (sep : Char) : Str → List Str
  | [] => [[]]
  | c :: tl =>
    if c = sep then [] :: splitOnChar sep tl
    else
      match splitOnChar sep tl with
      | [] => [[c]]
      | h :: t => (c :: h) :: t

/-- The sentence-accumulation loop of `_post_process_response` (stops at
the first sentence that would overflow `limit - 50`). -/
def truncate_sentences (limit : Nat) : List Str → Str → Str
  | [], acc => acc
  | sen :: rest, acc =>
    if (acc ++ sen ++ strL ".").length ≤ limit - 50 then
      truncate_sentences limit rest (acc ++ sen ++ strL ".")
    else acc

/-- `_post_process_response`: length truncation at sentence boundaries,
then the invitation-to-continue suffix (suppressed for goodbyes and after
a service action), then `strip()`. -/
def post_process_response (response : Str) (st : AgentState) : Str :=
  let response :=
    if max_message_length < response.length then
      let truncated := truncate_sentences max_message_length (splitOnChar '.' response) []
      if truncated ≠ [] then truncated ++ strL "\n\n(Mensaje truncado por longitud)"
      else response.take (max_message_length - 50) ++ strL "..."
    else response
  let response :=
    if st.sender_phone ≠ [] ∧ st.is_goodbye = false ∧ st.service_action_taken = false ∧
       response.length + 50 < max_message_length then
      response ++ strL "\n\n¿Hay algo más en lo que pueda ayudarte?"
    else response
  pyStrip response

/-- `_generate_response_node`: skipped entirely when a service action
already produced a response; otherwise a template lookup keyed by intent
(with the audio-error sentinel special case), post-processed when set. -/
def generate_response_node (integration : Option Services) (st : AgentState) : AgentState :=
  if st.service_action_taken = true ∧ st.response ≠ [] then st
  else
    let r : Option Str :=
      if st.intent = some (strL "greeting") then some greeting_response
      else if st.intent = some (strL "goodbye") then some goodbye_response
      else if is_error_message st.input_message then some error_handling_response
      else if st.intent = some (strL "pricing_inquiry") then some pricing_response
      else if st.intent = some (strL "service_inquiry") then some service_response
      else if st.intent = some (strL "scheduling") then some scheduling_response
      else if (st.intent = some (strL "email_request") ∨ st.intent = some (strL "calendar_request"))
              ∧ integration.isNone then
        some (service_unavailable_response st.intent)
      else none
    match r with
    | some resp => { st with response := post_process_response resp st }
    | none => st

/-- `_send_response_node`: deliver via the messaging collaborator; a
failure is recorded in `processing_errors` but does not abort the turn. -/
def send_response_node (waSend : Str → Str → Bool) (st : AgentState) : AgentState :=
  if st.response ≠ [] ∧ st.sender_phone ≠ [] then
    let ok := waSend st.sender_phone st.response
    let st := { st with response_sent := ok }
    if ok = false then
      { st with processing_errors := st.processing_errors ++ [strL "Failed to send response"] }
    else st
  else st

/-- `_handle_error_node` (terminal): apology built from the validation
error, delivery attempted when a sender is known. -/
def handle_error_node (waSend : Str → Str → Bool) (st : AgentState) : AgentState :=
  let error_msg :=
    match st.validation_error with
    | some e => e
    | none => strL "An error occurred processing your message."
  let resp := strL "I apologize, but " ++ lowerL error_msg ++
              strL " Please try again with a shorter message."
  let sent := if st.sender_phone ≠ [] then waSend st.sender_phone resp else st.response_sent
  { st with response := resp, message_type := .errorKind, response_sent := sent }

/-- The compiled LangGraph workflow: validate_input, then the conditional
edge to handle_error (terminal) or process_message → generate_response →
send_response.  Also returns the service-call trace of the turn. -/
def runGraph (now : Nat) (integration : Option Services) (waSend : Str → Str → Bool)
    (st0 : AgentState) : AgentState × SvcTrace :=
  let st1 := validate_input_node st0
  match st1.validation_error with
  | some _ => (handle_error_node waSend st1, {})
  | none =>
    let run := process_message_node now integration st1
    (send_response_node waSend (generate_response_node integration run.1), run.2)

/-- `_query_knowledge_base_async`: the collaborator's answer, with every
exception caught and mapped to None, and falsy answers (None or empty)
reported as None. -/
def query_knowledge_base_async (kbRaw : Except Str (Option Str)) : Option Str :=
  match kbRaw with
  | .error _ => none
  | .ok none => none
  | .ok (some r) => if r.isEmpty then none else some r

/-- Lines 74-84 of `process_message` (the top-level driver): when the
graph left no response and the intent is not greeting/goodbye, query the
knowledge base and fall back to the fixed text on a miss, then deliver
if not already delivered. -/
def kb_fallback_phase (kbRaw : Except Str (Option Str)) (waSend : Str → Str → Bool)
    (result : AgentState) : AgentState :=
  if result.response = [] ∧ result.intent ≠ some (strL "greeting") ∧
     result.intent ≠ some (strL "goodbye") then
    let result :=
      match query_knowledge_base_async kbRaw with
      | some kb => { result with response := kb }
      | none => { result with response := fallback_response }
    { result with response_sent :=
        (if result.response_sent = false ∧ result.response ≠ [] then
          waSend result.sender_phone result.response
        else result.response_sent) }
  else result

/-- `_update_session_async`: append the user message, and the assistant
reply when present, to the session store. -/
def update_session_async (now : Nat) (store : SessionStore) (st : AgentState) :
    AgentState × SessionStore :=
  let store := add_message now store st.sender_phone (strL "user") st.input_message none
  let store :=
    if st.response ≠ [] then
      add_message now store st.sender_phone (strL "assistant") st.response none
    else store
  ({ st with session_updated := true }, store)

/-- `process_message`, the top-level driver: graph run, knowledge-base
fallback, session update. -/
def process_message (now : Nat) (integration : Option Services)
    (waSend : Str → Str → Bool) (kbRaw : Except Str (Option Str))
    (store : SessionStore) (st0 : AgentState) : AgentState × SvcTrace × SessionStore :=
  let run := runGraph now integration waSend st0
  let r := kb_fallback_phase kbRaw waSend run.1
  let upd := update_session_async now store r
  (upd.1, run.2, upd.2)


/-! ## Helper lemmas about the session store -/

theorem findSession_overwrite (store : SessionStore) (uid : Str) (x : UserSession)
    (h : (store.find? (fun e => decide (e.1 = uid))).isSome = true) :
    findSession (store.map (fun e => if e.1 = uid then (uid, x) else e)) uid = some x := by
  induction store with
  | nil => simp at h
  | cons e tl ih =>
    by_cases he : e.1 = uid
    · unfold findSession
      rw [List.map_cons, if_pos he, List.find?_cons_of_pos _ (by simp)]
      rfl
    · rw [List.find?_cons_of_neg _ (by simpa using he)] at h
      have hrec := ih h
      unfold findSession at hrec ⊢
      rw [List.map_cons, if_neg he, List.find?_cons_of_neg _ (by simpa using he)]
      exact hrec

theorem findSession_append_new (store : SessionStore) (uid : Str) (x : UserSession)
    (h : store.find? (fun e => decide (e.1 = uid)) = none) :
    findSession (store ++ [(uid, x)]) uid = some x := by
  induction store with
  | nil =>
    unfold findSession
    rw [List.nil_append, List.find?_cons_of_pos _ (by simp)]
    rfl
  | cons e tl ih =>
    by_cases he : e.1 = uid
    · rw [List.find?_cons_of_pos _ (by simpa using he)] at h
      simp at h
    · rw [List.find?_cons_of_neg _ (by simpa using he)] at h
      have hrec := ih h
      unfold findSession at hrec ⊢
      rw [List.cons_append, List.find?_cons_of_neg _ (by simpa using he)]
      exact hrec

theorem findSession_storeSet (store : SessionStore) (uid : Str) (x : UserSession) :
    findSession (storeSet store uid x) uid = some x := by
  unfold storeSet
  by_cases h : (store.find? (fun e => decide (e.1 = uid))).isSome = true
  · rw [if_pos h]
    exact findSession_overwrite store uid x h
  · rw [if_neg h]
    refine findSession_append_new store uid x ?_
    exact Option.not_isSome_iff_eq_none.mp h

theorem findSession_user_id (store : SessionStore) (uid : Str) (s : UserSession)
    (hwf : ∀ e ∈ store, e.2.user_id = e.1)
    (h : findSession store uid = some s) : s.user_id = uid := by
  unfold findSession at h
  cases hf : store.find? (fun e => decide (e.1 = uid)) with
  | none => exact absurd h (by rw [hf]; simp)
  | some e =>
    rw [hf] at h
    have hm := List.mem_of_find?_eq_some hf
    have hp := List.find?_some hf
    simp only [Option.map_some'] at h
    simp only [decide_eq_true_eq] at hp
    cases h
    rw [hwf e hm, hp]

theorem foldl_delete_eq_filter (uids : List Str) (store : SessionStore) :
    uids.foldl (fun st uid => delete_session st uid) store =
      store.filter (fun e => !(decide (e.1 ∈ uids))) := by
  induction uids generalizing store with
  | nil => simp
  | cons u us ih =>
    rw [List.foldl_cons, ih]
    show (delete_session store u).filter _ = _
    unfold delete_session
    rw [List.filter_filter]
    apply List.filter_congr
    intro a _
    by_cases h1 : a.1 = u <;> by_cases h2 : a.1 ∈ us <;> simp [h1, h2]

/-! ## Claim C3 (session reads do not refresh `last_activity`, writes do) -/

def c3_session : UserSession :=
  { user_id := strL "u1", conversation_history := [], created_at := 0, last_activity := 0 }

def c3_store : SessionStore := [(strL "u1", c3_session)]

/-- C3 counterexample: reading an existing, unexpired session at time 5
returns it with `last_activity` still 0 and leaves the store untouched,
so `get_session` does NOT refresh `last_activity` as the claim states. -/
theorem C3_counterexample :
    (get_session 5 c3_store (strL "u1")).1 = some c3_session ∧
    c3_session.last_activity = 0 ∧ (0 : Nat) ≠ 5 ∧
    (get_session 5 c3_store (strL "u1")).2 = c3_store := by
  refine ⟨by decide, rfl, by decide, by decide⟩

/-- C3 (amended): only writes refresh the timestamp — `save_session`
stores the session with `last_activity` set to the current time, while
`get_session` returns an unexpired session exactly as stored, leaving
`last_activity` unchanged. -/
theorem C3_theorem :
    (∀ (now : Nat) (store : SessionStore) (s : UserSession),
      findSession (save_session now store s) s.user_id = some { s with last_activity := now }) ∧
    (∀ (now : Nat) (store : SessionStore) (uid : Str) (s : UserSession),
      (get_session now store uid).1 = some s → findSession store uid = some s) := by
  constructor
  · intro now store s
    exact findSession_storeSet store s.user_id { s with last_activity := now }
  · intro now store uid s h
    unfold get_session at h
    cases hf : findSession store uid with
    | none => rw [hf] at h; simp at h
    | some s0 =>
      rw [hf] at h
      dsimp only at h
      by_cases he : is_session_expired now s0 = true
      · rw [if_pos he] at h; simp at h
      · rw [if_neg he] at h
        simp only [Option.some_inj] at h
        rw [h]

/-- C3 witness: the amended theorem applied at concrete inputs. -/
theorem C3_witness :
    findSession (save_session 7 c3_store c3_session) (strL "u1") =
      some { c3_session with last_activity := 7 } ∧
    findSession c3_store (strL "u1") = some c3_session :=
  ⟨C3_theorem.1 7 c3_store c3_session,
   C3_theorem.2 5 c3_store (strL "u1") c3_session (by decide)⟩

/-! ## Claim C6 (expired sessions are absent; cleanup removes exactly them) -/

/-- C6: a stored session strictly older than the timeout is reported
absent by `get_session`, and `cleanup_expired_sessions` removes exactly
the expired entries (the store's keys are unique, which the dict
guarantees). -/
theorem C6_theorem (now : Nat) (store : SessionStore)
    (hnd : (store.map Prod.fst).Nodup) :
    (∀ uid s, findSession store uid = some s → is_session_expired now s = true →
      (get_session now store uid).1 = none) ∧
    cleanup_expired_sessions now store =
      store.filter (fun e => !(is_session_expired now e.2)) := by
  constructor
  · intro uid s hf he
    unfold get_session
    rw [hf]
    dsimp only
    rw [if_pos he]
  · unfold cleanup_expired_sessions
    rw [foldl_delete_eq_filter]
    apply List.filter_congr
    intro e he
    congr 1
    by_cases hexp : is_session_expired now e.2 = true
    · simp only [hexp, decide_eq_true_eq]
      exact List.mem_map.mpr ⟨e, List.mem_filter.mpr ⟨he, hexp⟩, rfl⟩
    · simp only [Bool.not_eq_true] at hexp
      simp only [hexp, decide_eq_false_iff_not]
      intro hmem
      rcases List.mem_map.mp hmem with ⟨x, hx, hx1⟩
      rcases List.mem_filter.mp hx with ⟨hxs, hxe⟩
      have hxeq : x = e := List.inj_on_of_nodup_map hnd hxs he hx1
      rw [hxeq] at hxe
      rw [hxe] at hexp
      cases hexp

def c6_stale : UserSession :=
  { user_id := strL "a", conversation_history := [], created_at := 0, last_activity := 0 }

def c6_fresh : UserSession :=
  { user_id := strL "b", conversation_history := [], created_at := 100, last_activity := 100 }

def c6_store : SessionStore := [(strL "a", c6_stale), (strL "b", c6_fresh)]

/-- C6 witness: at time 100 the stale session (last activity 0) is absent
and the sweep keeps exactly the fresh one. -/
theorem C6_witness :
    (get_session 100 c6_store (strL "a")).1 = none ∧
    cleanup_expired_sessions 100 c6_store = [(strL "b", c6_fresh)] := by
  have h := C6_theorem 100 c6_store (by decide)
  refine ⟨h.1 (strL "a") c6_stale (by decide) (by decide), ?_⟩
  rw [h.2]
  decide

/-! ## Claim C5 (bounded FIFO conversation history) -/

def takeLastL {α : Type} (n : Nat) (l : List α) : List α := l.drop (l.length - n)

theorem truncate_step {α : Type} (n : Nat) (l : List α) (e : α) :
    (if n < (takeLastL n l ++ [e]).length then
       (takeLastL n l ++ [e]).drop ((takeLastL n l ++ [e]).length - n)
     else takeLastL n l ++ [e]) = takeLastL n (l ++ [e]) := by
  unfold takeLastL
  by_cases hlen : l.length < n
  · have h0 : l.length - n = 0 := by omega
    have h1 : ¬ n < (l.drop 0 ++ [e]).length := by
      simp only [List.drop_zero, List.length_append, List.length_cons, List.length_nil]
      omega
    rw [h0, if_neg h1]
    have h2 : (l ++ [e]).length - n = 0 := by
      simp only [List.length_append, List.length_cons, List.length_nil]
      omega
    rw [h2, List.drop_zero, List.drop_zero]
  · have hd : (l.drop (l.length - n)).length = n := by
      rw [List.length_drop]; omega
    have hc : n < (l.drop (l.length - n) ++ [e]).length := by
      simp only [List.length_append, hd, List.length_cons, List.length_nil]
      omega
    rw [if_pos hc]
    have hlen2 : (l.drop (l.length - n) ++ [e]).length - n = 1 := by
      simp only [List.length_append, hd, List.length_cons, List.length_nil]
      omega
    rw [hlen2]
    rcases Nat.eq_zero_or_pos n with hn0 | hn1
    · subst hn0
      simp
    · have hstep1 : (l.drop (l.length - n) ++ [e]).drop 1 =
          (l.drop (l.length - n)).drop 1 ++ [e] := by
        rw [List.drop_append_eq_append_drop, hd]
        have : 1 - n = 0 := by omega
        rw [this, List.drop_zero]
      have hstep2 : ((l.drop (l.length - n)).drop 1 : List α) = l.drop (l.length - n + 1) := by
        rw [List.drop_drop]
      have hstep3 : (l ++ [e]).length - n = l.length - n + 1 := by
        simp only [List.length_append, List.length_cons, List.length_nil]
        omega
      have hstep4 : (l ++ [e]).drop (l.length - n + 1) = l.drop (l.length - n + 1) ++ [e] := by
        rw [List.drop_append_eq_append_drop]
        have : l.length - n + 1 - l.length = 0 := by omega
        rw [this, List.drop_zero]
      rw [hstep1, hstep2, hstep3, hstep4]

/-- `get_session` only reports sessions that are actually stored. -/
theorem get_session_found (now : Nat) (store : SessionStore) (uid : Str) (s : UserSession)
    (h : (get_session now store uid).1 = some s) : findSession store uid = some s := by
  unfold get_session at h
  cases hf : findSession store uid with
  | none => rw [hf] at h; simp at h
  | some s0 =>
    rw [hf] at h
    dsimp only at h
    by_cases he : is_session_expired now s0 = true
    · rw [if_pos he] at h; simp at h
    · rw [if_neg he] at h
      simp only [Option.some_inj] at h
      rw [h]

theorem add_message_empty (now : Nat) (uid role content : Str) :
    add_message now [] uid role content none =
      [(uid, { user_id := uid,
               conversation_history := [⟨role, content, now, none⟩],
               created_at := now, last_activity := now })] := by
  unfold add_message get_session findSession create_session save_session storeSet
  simp [MAX_CONVERSATION_HISTORY]

theorem add_message_single (now : Nat) (uid role content : Str) (sess : UserSession)
    (hid : sess.user_id = uid) (hla : sess.last_activity = now) :
    add_message now [(uid, sess)] uid role content none =
      [(uid, { user_id := uid,
               conversation_history :=
                 (if MAX_CONVERSATION_HISTORY <
                      (sess.conversation_history ++
                        [({ role := role, content := content, timestamp := now,
                            metadata := none } : ConversationTurn)]).length
                  then (sess.conversation_history ++
                        [({ role := role, content := content, timestamp := now,
                            metadata := none } : ConversationTurn)]).drop
                         ((sess.conversation_history ++
                           [({ role := role, content := content, timestamp := now,
                               metadata := none } : ConversationTurn)]).length -
                           MAX_CONVERSATION_HISTORY)
                  else sess.conversation_history ++
                        [({ role := role, content := content, timestamp := now,
                            metadata := none } : ConversationTurn)]),
               created_at := sess.created_at, last_activity := now,
               metadata := sess.metadata })] := by
  unfold add_message get_session findSession save_session storeSet
  have hexp : is_session_expired now sess = false := by
    unfold is_session_expired
    rw [hla]
    simp [SESSION_TIMEOUT_MINUTES]
  simp [hexp, hid]

/-- One conversation turn as appended by `add_message` for a (role,
content) pair. -/
def mkTurn (now : Nat) (m : Str × Str) : ConversationTurn :=
  { role := m.1, content := m.2, timestamp := now, metadata := none }

theorem c5_fold (now : Nat) (uid : Str) (msgs : List (Str × Str)) (hne : msgs ≠ []) :
    msgs.foldl (fun st m => add_message now st uid m.1 m.2 none) [] =
      [(uid, { user_id := uid,
               conversation_history := takeLastL MAX_CONVERSATION_HISTORY (msgs.map (mkTurn now)),
               created_at := now, last_activity := now })] := by
  induction msgs using List.reverseRecOn with
  | nil => cases hne rfl
  | append_singleton l m ih =>
    rw [List.foldl_append, List.foldl_cons, List.foldl_nil]
    rcases eq_or_ne l [] with hl | hl
    · subst hl
      simp only [List.foldl_nil]
      rw [add_message_empty]
      simp [takeLastL, mkTurn, MAX_CONVERSATION_HISTORY]
    · rw [ih hl, add_message_single now uid m.1 m.2 _ rfl rfl]
      have := truncate_step MAX_CONVERSATION_HISTORY (l.map (mkTurn now)) (mkTurn now m)
      simp only [mkTurn] at this
      simp only [List.map_append, List.map_cons, List.map_nil, mkTurn]
      rw [this]

/-- Saving a session makes it the one found under its own user id. -/
theorem findSession_save (now : Nat) (store : SessionStore) (s : UserSession) :
    findSession (save_session now store s) s.user_id = some { s with last_activity := now } :=
  findSession_storeSet store s.user_id { s with last_activity := now }

theorem c5_len (now : Nat) (store : SessionStore) (uid role content : Str) (md : Option Str)
    (hwf : ∀ e ∈ store, e.2.user_id = e.1) (s' : UserSession)
    (hfind : findSession (add_message now store uid role content md) uid = some s') :
    s'.conversation_history.length ≤ MAX_CONVERSATION_HISTORY := by
  unfold add_message at hfind
  dsimp only at hfind
  cases hg : (get_session now store uid).1 with
  | some s0 =>
    rw [hg] at hfind
    dsimp only at hfind
    have hid : s0.user_id = uid :=
      findSession_user_id store uid s0 hwf (get_session_found now store uid s0 hg)
    rw [← hid] at hfind
    rw [findSession_save] at hfind
    simp only [Option.some_inj] at hfind
    rw [← hfind]
    dsimp only
    split
    · rw [List.length_drop]
      omega
    · omega
  | none =>
    rw [hg] at hfind
    dsimp only at hfind
    erw [findSession_save] at hfind
    simp only [Option.some_inj] at hfind
    rw [← hfind]
    dsimp only
    split
    · rw [List.length_drop]
      omega
    · omega

/-- C5: after every `add_message` the stored session's history length is
at most `MAX_CONVERSATION_HISTORY`, and folding a sequence of appends over
a fresh store retains exactly the most recent `MAX_CONVERSATION_HISTORY`
appended turns, oldest evicted first, in order. -/
theorem C5_theorem :
    (∀ (now : Nat) (store : SessionStore) (uid role content : Str) (md : Option Str)
       (s' : UserSession),
      (∀ e ∈ store, e.2.user_id = e.1) →
      findSession (add_message now store uid role content md) uid = some s' →
      s'.conversation_history.length ≤ MAX_CONVERSATION_HISTORY) ∧
    (∀ (now : Nat) (uid : Str) (msgs : List (Str × Str)), msgs ≠ [] →
      msgs.foldl (fun st m => add_message now st uid m.1 m.2 none) [] =
        [(uid, { user_id := uid,
                 conversation_history :=
                   takeLastL MAX_CONVERSATION_HISTORY (msgs.map (mkTurn now)),
                 created_at := now, last_activity := now })]) :=
  ⟨fun now store uid role content md s' hwf hfind =>
     c5_len now store uid role content md hwf s' hfind,
   fun now uid msgs hne => c5_fold now uid msgs hne⟩

def c5_msgs : List (Str × Str) :=
  [(strL "user", strL "m01"), (strL "assistant", strL "m02"), (strL "user", strL "m03"),
   (strL "assistant", strL "m04"), (strL "user", strL "m05"), (strL "assistant", strL "m06"),
   (strL "user", strL "m07"), (strL "assistant", strL "m08"), (strL "user", strL "m09"),
   (strL "assistant", strL "m10"), (strL "user", strL "m11"), (strL "assistant", strL "m12")]

def c5_sess1 : UserSession :=
  { user_id := strL "u",
    conversation_history :=
      [{ role := strL "user", content := strL "hey", timestamp := 0, metadata := none }],
    created_at := 0, last_activity := 0 }

/-- C5 witness: the bound applied to an append on the empty store, and
the FIFO characterisation applied to twelve concrete appends. -/
theorem C5_witness :
    c5_sess1.conversation_history.length ≤ MAX_CONVERSATION_HISTORY ∧
    c5_msgs.foldl (fun st m => add_message 0 st (strL "u") m.1 m.2 none) [] =
      [(strL "u", { user_id := strL "u",
                    conversation_history :=
                      takeLastL MAX_CONVERSATION_HISTORY (c5_msgs.map (mkTurn 0)),
                    created_at := 0, last_activity := 0 })] :=
  ⟨C5_theorem.1 0 [] (strL "u") (strL "user") (strL "hey") none c5_sess1
     (fun e he => absurd he (List.not_mem_nil e)) (by decide),
   C5_theorem.2 0 (strL "u") c5_msgs (by decide)⟩

/-! ## Claims C7-C10 (orchestrator validation, fallback, classification) -/

/-- C7: an input that is empty after trimming, or longer than twice the
4000-character channel limit, sets a validation error; the turn is routed
to the terminal error handler, whose apology (built from the lowercased
error text) becomes the response; no service-intent matching runs (empty
trace) and no intent classification runs (intent and the analysis flags
are untouched). -/
theorem C7_theorem (now : Nat) (integration : Option Services)
    (waSend : Str → Str → Bool) (st : AgentState)
    (h : pyStrip st.input_message = [] ∨
         max_message_length * 2 < (pyStrip st.input_message).length) :
    (runGraph now integration waSend st).1.validation_error ≠ none ∧
    (pyStrip st.input_message = [] →
      (runGraph now integration waSend st).1.response =
        strL "I apologize, but empty message received Please try again with a shorter message.") ∧
    (max_message_length * 2 < (pyStrip st.input_message).length →
      (runGraph now integration waSend st).1.response =
        strL "I apologize, but message too long Please try again with a shorter message.") ∧
    (runGraph now integration waSend st).2 = ({} : SvcTrace) ∧
    (runGraph now integration waSend st).1.intent = st.intent ∧
    (runGraph now integration waSend st).1.is_greeting = st.is_greeting := by
  rcases h with he | hl
  · have hval : validate_input_node st =
        { st with validation_error := some (strL "Empty message received") } := by
      unfold validate_input_node
      rw [if_pos he]
    unfold runGraph
    rw [hval]
    refine ⟨by simp [handle_error_node], fun _ => ?_, fun hlong => ?_, rfl, by simp [handle_error_node], by simp [handle_error_node]⟩
    · simp only [handle_error_node]
      decide
    · rw [he] at hlong
      simp at hlong
  · have hne : ¬ pyStrip st.input_message = [] := by
      intro hz
      rw [hz] at hl
      simp at hl
    have hval : validate_input_node st =
        { st with validation_error := some (strL "Message too long") } := by
      unfold validate_input_node
      rw [if_neg hne, if_pos hl]
    unfold runGraph
    rw [hval]
    refine ⟨by simp [handle_error_node], fun hz => absurd hz hne, fun _ => ?_, rfl, by simp [handle_error_node], by simp [handle_error_node]⟩
    simp only [handle_error_node]
    decide

/-- C7 witness: a whitespace-only input yields the empty-message apology
with an empty service trace and untouched intent. -/
theorem C7_witness :
    (runGraph 0 none (fun _ _ => true)
        { input_message := strL "   ", sender_phone := strL "p1" }).1.response =
      strL "I apologize, but empty message received Please try again with a shorter message." ∧
    (runGraph 0 none (fun _ _ => true)
        { input_message := strL "   ", sender_phone := strL "p1" }).2 = ({} : SvcTrace) ∧
    (runGraph 0 none (fun _ _ => true)
        { input_message := strL "   ", sender_phone := strL "p1" }).1.intent = none :=
  have h := C7_theorem 0 none (fun _ _ => true)
    { input_message := strL "   ", sender_phone := strL "p1" } (Or.inl (by decide))
  ⟨h.2.1 (by decide), h.2.2.2.1, h.2.2.2.2.1⟩

/-- C8: when the graph hands the driver a turn with an empty response and
an intent other than greeting/goodbye, and the knowledge-base wrapper
reports null (which is what it reports for a null answer, an empty
answer, a timeout or any raised error), the final response is exactly the
fixed fallback text, which is non-empty — the collaborator's raw error
string never reaches the response. -/
theorem C8_theorem (kbRaw : Except Str (Option Str)) (waSend : Str → Str → Bool)
    (r : AgentState)
    (h1 : r.response = [])
    (h2 : r.intent ≠ some (strL "greeting"))
    (h3 : r.intent ≠ some (strL "goodbye"))
    (h4 : query_knowledge_base_async kbRaw = none) :
    (kb_fallback_phase kbRaw waSend r).response = fallback_response ∧
    fallback_response ≠ [] := by
  constructor
  · unfold kb_fallback_phase
    rw [if_pos ⟨h1, h2, h3⟩, h4]
  · decide

/-- C8 witness: a general inquiry with an empty response and an erroring
knowledge base gets the fallback text. -/
theorem C8_witness :
    (kb_fallback_phase (.error (strL "kb timeout")) (fun _ _ => true)
        { intent := some (strL "general_inquiry") }).response = fallback_response :=
  (C8_theorem (.error (strL "kb timeout")) (fun _ _ => true)
    { intent := some (strL "general_inquiry") } rfl (by decide) (by decide) rfl).1

/-- C9: any input whose lowercased, stripped text contains a greeting
keyword is classified as intent "greeting" with confidence 0.9 by the
message-analysis step (run here with no service integration, i.e. no
service action short-circuits the turn), regardless of keyword position
or other rule keywords present, because the greeting rule is evaluated
first. -/
theorem C9_theorem (now : Nat) (st : AgentState)
    (h : greeting_words.any
          (fun w => containsSub (pyStrip (lowerL st.input_message)) w) = true) :
    (process_message_node now none st).1.intent = some (strL "greeting") ∧
    (process_message_node now none st).1.confidence = 9 / 10 := by
  unfold process_message_node message_analysis
  dsimp only
  rw [h]
  constructor
  · simp
  · simp

/-- C9 witness: a message containing greeting, goodbye, pricing and
service keywords at once is still classified "greeting" at 0.9. -/
theorem C9_witness :
    (process_message_node 0 none
        { input_message := strL "what is the price of services? hello and bye" }).1.intent =
      some (strL "greeting") ∧
    (process_message_node 0 none
        { input_message := strL "what is the price of services? hello and bye" }).1.confidence =
      9 / 10 :=
  C9_theorem 0 { input_message := strL "what is the price of services? hello and bye" }
    (by decide)

/-- C10: the concrete greeting-free input "which services do you offer?"
is nevertheless classified as "greeting" with confidence 0.9 (with no
service integration configured), because greeting detection is substring
containment and "hi" occurs inside "which". -/
theorem C10_theorem :
    containsSub (strL "which services do you offer?") (strL "hi") = true ∧
    (process_message_node 0 none
        { input_message := strL "which services do you offer?" }).1.intent =
      some (strL "greeting") ∧
    (process_message_node 0 none
        { input_message := strL "which services do you offer?" }).1.confidence = 9 / 10 := by
  exact ⟨by decide, by decide, by rfl⟩

/-! ## Claim C4 (email matcher: one send or typed error) -/

/-- C4: whenever an email-trigger pattern matches the lowercased text, the
matcher either (a) finds the leftmost regex-extractable address in the raw
text and calls the email collaborator's send exactly once with that
address as recipient (whatever the send returns), or (b) finds no address
and returns the email_error/failure result without invoking the email
collaborator at all. -/
theorem C4_theorem (svc : Services) (message user_id : Str)
    (h : (search_list email_patterns (lowerL message)).isSome = true) :
    (match re_search email_address_re message with
     | some em =>
       (check_email_intent svc message (lowerL message) user_id).2.emailCalls.map (·.1) =
         [em.matchedText]
     | none =>
       (check_email_intent svc message (lowerL message) user_id).1 =
         some { action := strL "email_error", success := false,
                message := strL "No se encontró una dirección de email válida en el mensaje." } ∧
       (check_email_intent svc message (lowerL message) user_id).2.emailCalls = []) := by
  unfold check_email_intent
  rw [if_pos h]
  cases hre : re_search email_address_re message with
  | none => exact ⟨rfl, rfl⟩
  | some em =>
    dsimp only
    cases hok : svc.send_email em.matchedText
      (match extract_email_subject message with
       | some s => s
       | none => strL "Mensaje de " ++ user_id)
      (extract_email_body message em.matchedText) with
    | false => simp
    | true => simp

def c4_svc : Services :=
  { send_email := fun _ _ _ => true,
    create_event := fun _ => some (strL "event_123"),
    db_insert := fun _ => true }

/-- C4 witness (address present): "send email to bob@example.com please"
triggers exactly one send whose recipient is the extracted address. -/
theorem C4_witness :
    (check_email_intent c4_svc (strL "send email to bob@example.com please")
        (lowerL (strL "send email to bob@example.com please")) (strL "u1")).2.emailCalls.map (·.1) =
      [strL "bob@example.com"] := by
  have h := C4_theorem c4_svc (strL "send email to bob@example.com please") (strL "u1") (by decide)
  rw [show re_search email_address_re (strL "send email to bob@example.com please") =
        some ⟨14, strL "bob@example.com", []⟩ from by decide] at h
  exact h

/-! ## Claim C1 (calendar intent of "Schedule meeting tomorrow at 3pm") -/

def c1_message : Str := strL "Schedule meeting tomorrow at 3pm"

def c1_services (cr : Option Str) : Services :=
  { send_email := fun _ _ _ => true,
    create_event := fun _ => cr,
    db_insert := fun _ => true }

/-- The event details the matcher extracts from the C1 message. -/
def c1_details (now : Nat) : EventDetails :=
  { summary := strL "meeting tomorrow at",
    start_datetime := now + 1440, end_datetime := now + 1440 + 60,
    attendees := [] }

theorem c1_email_none (svc : Services) :
    check_email_intent svc c1_message (lowerL c1_message) (strL "u1") = (none, {}) := by
  unfold check_email_intent
  rw [if_neg (by decide)]

theorem c1_extract (now : Nat) :
    extract_event_details now c1_message = some (c1_details now) := by
  unfold extract_event_details extract_datetime_from_message
  rw [if_pos (by decide)]
  dsimp only
  rw [show event_summary_of c1_message = strL "meeting tomorrow at" from by decide,
      show re_findall email_address_re c1_message = [] from by decide]
  rfl

theorem c1_calendar_none (now : Nat) :
    check_calendar_intent now (c1_services none) c1_message (lowerL c1_message) (strL "u1") =
      (some { action := strL "calendar_error", success := false,
              message := strL "❌ Error al crear el evento en el calendario." },
       { calendarCalls := [c1_details now] }) := by
  unfold check_calendar_intent
  rw [if_pos (by decide), c1_extract]
  rfl

theorem c1_calendar_some (now : Nat) (eid : Str) :
    check_calendar_intent now (c1_services (some eid)) c1_message (lowerL c1_message) (strL "u1") =
      (some { action := strL "calendar_event_created", success := true,
              message := strL "📅 Evento creado: " ++ strL "meeting tomorrow at" ++
                         strL " para " ++ natToDigits (now + 1440) },
       { calendarCalls := [c1_details now], dbInserts := [strL "service_actions"] }) := by
  unfold check_calendar_intent
  rw [if_pos (by decide), c1_extract]
  rfl

theorem c1_main_none (now : Nat) :
    process_service_intent now (c1_services none) c1_message (strL "u1") =
      ({ action := strL "calendar_error", success := false,
         message := strL "❌ Error al crear el evento en el calendario." },
       { calendarCalls := [c1_details now] }) := by
  unfold process_service_intent
  dsimp only
  rw [c1_email_none]
  dsimp only
  rw [c1_calendar_none]

theorem c1_main_some (now : Nat) (eid : Str) :
    process_service_intent now (c1_services (some eid)) c1_message (strL "u1") =
      ({ action := strL "calendar_event_created", success := true,
         message := strL "📅 Evento creado: " ++ strL "meeting tomorrow at" ++
                    strL " para " ++ natToDigits (now + 1440) },
       { calendarCalls := [c1_details now], dbInserts := [strL "service_actions"] }) := by
  unfold process_service_intent
  dsimp only
  rw [c1_email_none]
  dsimp only
  rw [c1_calendar_some]

/-- C1 counterexample: at current time 10:00 (minute 600 of day 0), the
start extracted from "Schedule meeting tomorrow at 3pm" has hour 10, not
15 — the "tomorrow" branch returns now + 1 day before the "at 3pm" time
pattern is ever consulted. -/
theorem C1_counterexample :
    (process_service_intent 600 (c1_services none) c1_message (strL "u1")).2.calendarCalls.map
        (fun ed => hourOfMinutes ed.start_datetime) = [10] ∧
    (10 : Nat) ≠ 15 :=
  ⟨by decide, by decide⟩

/-- C1 (amended): for every current time, the calendar intent of
"Schedule meeting tomorrow at 3pm" invokes event creation exactly once,
with start = now + 1 day (so the start's hour equals the current hour —
the "tomorrow" branch short-circuits the "at 3pm" pattern — not 15) and
end = start + 1 hour; the email collaborator is never invoked; and a null
event id from the collaborator yields the "calendar_error" failure
result. -/
theorem C1_theorem (now : Nat) (cr : Option Str) :
    (process_service_intent now (c1_services cr) c1_message (strL "u1")).2.calendarCalls =
      [{ summary := strL "meeting tomorrow at",
         start_datetime := now + 1440, end_datetime := now + 1440 + 60,
         attendees := [] }] ∧
    (process_service_intent now (c1_services cr) c1_message (strL "u1")).2.emailCalls = [] ∧
    (cr = none →
      (process_service_intent now (c1_services cr) c1_message (strL "u1")).1.action =
          strL "calendar_error" ∧
      (process_service_intent now (c1_services cr) c1_message (strL "u1")).1.success = false) := by
  cases cr with
  | none =>
    rw [c1_main_none]
    exact ⟨rfl, rfl, fun _ => ⟨rfl, rfl⟩⟩
  | some eid =>
    rw [c1_main_some]
    exact ⟨rfl, rfl, fun hn => absurd hn (by simp)⟩

/-- C1 witness: with a null-returning collaborator at time 600 the action
is "calendar_error" and exactly one creation was attempted. -/
theorem C1_witness :
    (process_service_intent 600 (c1_services none) c1_message (strL "u1")).1.action =
      strL "calendar_error" ∧
    (process_service_intent 600 (c1_services none) c1_message (strL "u1")).2.calendarCalls.length
      = 1 :=
  ⟨((C1_theorem 600 none).2.2 rfl).1,
   by rw [(C1_theorem 600 none).1]; rfl⟩

/-! ## Claim C2 ("Hola" through the orchestrator) -/

def c2_services : Services :=
  { send_email := fun _ _ _ => true,
    create_event := fun _ => some (strL "event_123"),
    db_insert := fun _ => true }

def c2_state : AgentState :=
  { input_message := strL "Hola", sender_phone := strL "5215550000001" }

/-- The graph result for "Hola" with a configured service integration. -/
def c2_result : AgentState := (runGraph 0 (some c2_services) (fun _ _ => true) c2_state).1

/-- C2 counterexample: for "Hola" with a configured service integration,
`service_action_taken` is true, not false as claimed — the matcher's
no-match result is itself a dictionary with success False, which the
orchestrator records as an attempted-but-failed service action. -/
theorem C2_counterexample : c2_result.service_action_taken ≠ false := by decide

/-- C2 (amended): for "Hola" with a configured service integration, no
service pattern matches (the matcher reports action "none" and no
collaborator is invoked), the intent is "greeting" with confidence 0.9
and the response is exactly the fixed Spanish greeting template; but the
turn state's `service_action_taken` flag ends up true (and
`service_error` set), because the "none" result carries success = False
and the orchestrator treats every unsuccessful result as a failed
service action. -/
theorem C2_theorem :
    c2_result.intent = some (strL "greeting") ∧
    c2_result.confidence = 9 / 10 ∧
    c2_result.response = greeting_response ∧
    c2_result.service_action_taken = true ∧
    c2_result.service_action_result =
      some { action := strL "none", success := false,
             message := strL "No service action detected" } ∧
    c2_result.service_error = some (strL "No service action detected") ∧
    (runGraph 0 (some c2_services) (fun _ _ => true) c2_state).2 = ({} : SvcTrace) := by
  refine ⟨by decide, by rfl, by decide, by decide, by decide, by decide, by decide⟩
